import Mathlib

/-
Verification of the ai-student-planner frontend (Next.js / TypeScript client).

This file gives a shallow embedding, in Lean 4, of the client code that the
claims concern:

  * the browser localStorage API, modelled as an association list of
    string keys to string values (src/frontend/lib/auth.ts,
    the api client, src/frontend/src/lib/store.ts);
  * the axios instance of the api client module: its request interceptor
    (bearer-token injection) and its response interceptor (single-shot
    token refresh and retry on a 401);
  * the zustand stores of src/frontend/src/lib/store.ts (auth store and
    plan store);
  * the page handlers handleUpload / handleGeneratePlan of
    src/frontend/src/app/upload/page.tsx and handleTaskSave of
    src/frontend/src/app/dashboard/page.tsx, with the network modelled as
    explicit call results passed in as arguments.

JavaScript truthiness is modelled faithfully where the code relies on it:
a string is truthy iff it is non-empty, a number is truthy iff it is
non-zero, an object or array is truthy iff it is not null/undefined
(here: Option.isSome).  Promise rejection is modelled with Except, and
the async handlers become pure state-transition functions that also
report the list of network requests they issued, so that temporal facts
(an update happening before a call, or no call at all) are statable.
-/

namespace Planner

/-- JavaScript truthiness of a string: truthy iff non-empty. -/
def jsTruthy (s : String) : Bool := s != ""

-- =============================================================================
-- localStorage model
-- =============================================================================

/-- Browser localStorage: an association list from keys to stored strings.
The first binding of a key wins, matching a map. -/
def Storage : Type := List (String × String)

instance : DecidableEq Storage := by
  unfold Storage
  infer_instance

/-- The empty localStorage. -/
def Storage.empty : Storage := []

/-- localStorage.getItem: the value stored at the key, or null. -/
def getItem : Storage → String → Option String
  | [], _ => none
  | p :: rest, k => if p.1 = k then some p.2 else getItem rest k

/-- All bindings of a key removed (helper for setItem / removeItem). -/
def eraseKey (s : Storage) (k : String) : Storage :=
  s.filter (fun p => p.1 != k)

/-- localStorage.setItem: bind the key to the value, shadowing any old one. -/
def setItem (s : Storage) (k v : String) : Storage :=
  (k, v) :: eraseKey s k

/-- localStorage.removeItem. -/
def removeItem (s : Storage) (k : String) : Storage :=
  eraseKey s k

-- =============================================================================
-- src/frontend/lib/auth.ts
-- =============================================================================

/-- getAuthToken from src/frontend/lib/auth.ts.  The first argument models
whether a window object exists (false during server-side rendering); the
function then reads localStorage under the key auth_token. -/
def getAuthToken (windowDefined : Bool) (s : Storage) : Option String :=
  if !windowDefined then none
  else getItem s "auth_token"

/-- setAuthToken from src/frontend/lib/auth.ts: writes the key auth_token
when a window object exists, otherwise leaves storage unchanged. -/
def setAuthToken (windowDefined : Bool) (s : Storage) (token : String) : Storage :=
  if !windowDefined then s
  else setItem s "auth_token" token

-- =============================================================================
-- authAPI.login / authAPI.logout storage effects (api client module)
-- =============================================================================

/-- The storage effect of a successful authAPI.login: the access_token and
refresh_token of the response are written to localStorage. -/
def loginStoreTokens (s : Storage) (access_token refresh_token : String) : Storage :=
  setItem (setItem s "access_token" access_token) "refresh_token" refresh_token

/-- The storage effect of authAPI.logout: both token keys are removed. -/
def logoutRemoveTokens (s : Storage) : Storage :=
  removeItem (removeItem s "access_token") "refresh_token"

-- =============================================================================
-- Data model (src/frontend/src/lib/types.ts)
-- =============================================================================

/-- User DTO. -/
structure User where
  id : Nat
  email : String
  full_name : String
  created_at : String
deriving DecidableEq

/-- Assignment entry of a parsed syllabus. -/
structure Assignment where
  name : String
  due_date : Option String
  weight : Option Int
  type : Option String
  description : Option String
deriving DecidableEq

/-- Exam entry of a parsed syllabus. -/
structure Exam where
  name : String
  date : Option String
  weight : Option Int
  type : Option String
  topics : List String
deriving DecidableEq

/-- Important date of a parsed syllabus. -/
structure ImportantDate where
  date : String
  event : String
  type : Option String
deriving DecidableEq

/-- ParsedSyllabusData DTO. -/
structure ParsedSyllabusData where
  course_name : Option String
  course_code : Option String
  instructor : Option String
  semester : Option String
  assignments : List Assignment
  exams : List Exam
  important_dates : List ImportantDate
  office_hours : Option String
  textbook : Option String
  grading_policy : Option String
deriving DecidableEq

/-- Syllabus DTO. -/
structure Syllabus where
  syllabus_id : Nat
  filename : String
  is_processed : Bool
  parsed_data : Option ParsedSyllabusData
  raw_text : Option String
  processing_error : Option String
  created_at : String
deriving DecidableEq

/-- TaskType union; the JS string value break is named breakTime here
because break is a reserved word in Lean. -/
inductive TaskType where
  | reading | homework | study | exam_prep | project | review | breakTime
deriving DecidableEq

/-- TaskStatus union. -/
inductive TaskStatus where
  | pending | in_progress | completed | skipped
deriving DecidableEq

/-- DifficultyLevel union. -/
inductive DifficultyLevel where
  | very_easy | easy | moderate | hard | very_hard
deriving DecidableEq

/-- Task DTO.  JS numbers that the claims never compute with are modelled
as Nat / Int. -/
structure Task where
  id : String
  title : String
  description : Option String
  date : String
  duration_minutes : Nat
  type : TaskType
  status : TaskStatus
  priority : Option Int
  related_assignment_id : Option Int
  actual_duration_minutes : Option Nat
  difficulty : Option String
  notes : Option String
deriving DecidableEq

/-- WeekPlan DTO. -/
structure WeekPlan where
  week_number : Nat
  start_date : String
  end_date : String
  tasks : List Task
  notes : Option String
deriving DecidableEq

/-- StudyPlan DTO.  The Record-typed preferences / metadata bags are
modelled as string-keyed association lists; no claim inspects them. -/
structure StudyPlan where
  title : String
  description : Option String
  weeks : List WeekPlan
  total_study_hours : Option Int
  preferences : List (String × String)
  metadata : List (String × String)
deriving DecidableEq

/-- Plan DTO. -/
structure Plan where
  plan_id : Nat
  title : String
  description : Option String
  status : String
  plan_data : StudyPlan
  created_at : String
  updated_at : Option String
  version_number : Nat
deriving DecidableEq

/-- PlanProgress DTO (fractional percentages are opaque to every claim,
so JS numbers are modelled as Int). -/
structure PlanProgress where
  total_tasks : Nat
  completed_tasks : Nat
  pending_tasks : Nat
  progress_percentage : Int
  total_hours_planned : Int
  total_hours_actual : Int
deriving DecidableEq

-- =============================================================================
-- Task updates (src/frontend/src/components/TaskModal.tsx handleSave payload)
-- =============================================================================

/-- The object literal TaskModal.handleSave passes to onSave.  All four keys
are present in the literal; status always carries a TaskStatus, the other
three carry undefined (none) when the form field is falsy. -/
structure TaskUpdate where
  status : TaskStatus
  actual_duration_minutes : Option Nat
  difficulty : Option String
  notes : Option String
deriving DecidableEq

/-- Construction of the update payload in TaskModal.handleSave:
actualDuration zero, an empty difficulty and empty notes become
undefined through the JS or-else operator. -/
def buildTaskUpdate (status : TaskStatus) (actualDuration : Nat)
    (difficulty : Option String) (notes : String) : TaskUpdate :=
  { status := status
    actual_duration_minutes := if actualDuration = 0 then none else some actualDuration
    difficulty := match difficulty with
      | some d => if jsTruthy d then some d else none
      | none => none
    notes := if jsTruthy notes then some notes else none }

/-- The JS object spread applied in the store: since the update literal
contains all four keys (possibly bound to undefined), the spread replaces
exactly those four fields of the task. -/
def mergeTask (t : Task) (u : TaskUpdate) : Task :=
  { t with
    status := u.status
    actual_duration_minutes := u.actual_duration_minutes
    difficulty := u.difficulty
    notes := u.notes }

-- =============================================================================
-- Auth store (src/frontend/src/lib/store.ts, useAuthStore)
-- =============================================================================

/-- In-memory state of useAuthStore. -/
structure AuthState where
  user : Option User
  isAuthenticated : Bool
  isLoading : Bool
deriving DecidableEq

/-- Initial auth store state. -/
def AuthState.initial : AuthState :=
  { user := none, isAuthenticated := false, isLoading := false }

/-- setUser: stores the user and sets isAuthenticated to the JS truthiness
of the argument (a non-null object is truthy). -/
def AuthState.setUser (s : AuthState) (u : Option User) : AuthState :=
  { s with user := u, isAuthenticated := u.isSome }

/-- logout of useAuthStore: removes both token keys from localStorage and
clears the user. -/
def AuthState.logout (s : AuthState) (storage : Storage) : AuthState × Storage :=
  ({ s with user := none, isAuthenticated := false },
   removeItem (removeItem storage "access_token") "refresh_token")

-- =============================================================================
-- Plan store (src/frontend/src/lib/store.ts, usePlanStore)
-- =============================================================================

/-- In-memory state of usePlanStore. -/
structure PlanState where
  currentPlan : Option Plan
  plans : List Plan
  syllabi : List Syllabus
deriving DecidableEq

/-- Initial plan store state. -/
def PlanState.initial : PlanState :=
  { currentPlan := none, plans := [], syllabi := [] }

/-- setCurrentPlan: zustand set merges the given partial state, so only
currentPlan is replaced. -/
def PlanState.setCurrentPlan (s : PlanState) (plan : Option Plan) : PlanState :=
  { s with currentPlan := plan }

/-- setPlans. -/
def PlanState.setPlans (s : PlanState) (plans : List Plan) : PlanState :=
  { s with plans := plans }

/-- setSyllabi. -/
def PlanState.setSyllabi (s : PlanState) (syllabi : List Syllabus) : PlanState :=
  { s with syllabi := syllabi }

/-- addPlan: prepends the plan to the plans list. -/
def PlanState.addPlan (s : PlanState) (plan : Plan) : PlanState :=
  { s with plans := plan :: s.plans }

/-- updateTask: if no current plan, the state is returned unchanged;
otherwise every task whose id matches is replaced by the spread merge,
inside a copy of the weeks list, and only currentPlan is replaced. -/
def PlanState.updateTask (s : PlanState) (taskId : String) (updates : TaskUpdate) :
    PlanState :=
  match s.currentPlan with
  | none => s
  | some plan =>
    let planData := plan.plan_data
    let newWeeks := planData.weeks.map (fun week =>
      { week with tasks := week.tasks.map (fun task =>
          if task.id = taskId then mergeTask task updates else task) })
    { s with currentPlan := some { plan with plan_data := { planData with weeks := newWeeks } } }

-- =============================================================================
-- Axios client (api client module: api.interceptors.request / response)
-- =============================================================================

/-- The part of an axios request config the interceptors act on: the
Authorization header and the custom _retry marker the response
interceptor sets on a request it has already tried to refresh. -/
structure ReqConfig where
  url : String
  authHeader : Option String
  _retry : Bool
deriving DecidableEq

/-- Outcome of one wire-level send: a fulfilled response with data, or an
axios error whose response status is status (none models an error
without a response object). -/
inductive NetResult where
  | ok (data : String)
  | err (status : Option Nat)
deriving DecidableEq

/-- What a caller of the api client can see rejected: the original axios
error, or the error thrown by the refresh call.  outOfFuel is an
artifact of the bounded recursion of the embedding; a request entering
with _retry unset never produces it, because the recursion of the source
(api(originalRequest)) is guarded by the _retry flag and so has depth at
most two. -/
inductive Rejection where
  | httpErr (status : Option Nat)
  | refreshErr
  | outOfFuel
deriving DecidableEq

/-- Result of an api call as seen by the caller. -/
inductive ApiResult where
  | success (data : String)
  | rejected (r : Rejection)
deriving DecidableEq

/-- Browser-side state the client touches: localStorage and the
window.location.href assignment performed on refresh failure. -/
structure Client where
  storage : Storage
  redirect : Option String
deriving DecidableEq

/-- The request interceptor: reads access_token from localStorage and, when
it is truthy (non-null and non-empty), sets the Authorization header to
Bearer followed by the token; otherwise the config passes unchanged. -/
def requestInterceptor (storage : Storage) (cfg : ReqConfig) : ReqConfig :=
  match getItem storage "access_token" with
  | some token =>
    if jsTruthy token then { cfg with authHeader := some ("Bearer " ++ token) } else cfg
  | none => cfg

/-- A whole run of an api call: final browser state, the settled result,
the configs handed to the wire in order, and how many POSTs to
/auth/refresh were made. -/
structure ApiRun where
  client : Client
  result : ApiResult
  sends : List ReqConfig
  refreshCalls : Nat
deriving DecidableEq

/-- One pass of the api client: the request interceptor runs, the request
goes to the wire (net), and the response interceptor handles the
outcome.  On a 401 whose config has no _retry marker the interceptor
sets the marker, reads refresh_token, and if that token is truthy POSTs
it to /auth/refresh (refreshNet, returning the new access_token or
failing); on refresh success it stores the new token, rewrites the
Authorization header, and re-enters the client with the marked config;
on refresh failure it removes both tokens, redirects to /login and
rejects the refresh error; in every other case it rejects the original
error.  The source recursion api(originalRequest) is guarded by _retry,
so fuel two (apiRequest below) fully evaluates every fresh request. -/
def apiSend (net : ReqConfig → NetResult) (refreshNet : String → Option String) :
    Nat → Client → ReqConfig → ApiRun
  | 0, cl, _ =>
    { client := cl, result := .rejected .outOfFuel, sends := [], refreshCalls := 0 }
  | fuel + 1, cl, cfg =>
    let cfg1 := requestInterceptor cl.storage cfg
    match net cfg1 with
    | .ok d => { client := cl, result := .success d, sends := [cfg1], refreshCalls := 0 }
    | .err status =>
      if status = some 401 ∧ cfg1._retry = false then
        -- originalRequest._retry = true (observable only on the resent config)
        match getItem cl.storage "refresh_token" with
        | some refreshToken =>
          if jsTruthy refreshToken then
            match refreshNet refreshToken with
            | some access_token =>
              let cl2 : Client :=
                { cl with storage := setItem cl.storage "access_token" access_token }
              let cfg2 : ReqConfig :=
                { cfg1 with _retry := true,
                            authHeader := some ("Bearer " ++ access_token) }
              let inner := apiSend net refreshNet fuel cl2 cfg2
              { inner with sends := cfg1 :: inner.sends,
                           refreshCalls := inner.refreshCalls + 1 }
            | none =>
              { client := { storage := logoutRemoveTokens cl.storage,
                            redirect := some "/login" },
                result := .rejected .refreshErr, sends := [cfg1], refreshCalls := 1 }
          else
            { client := cl, result := .rejected (.httpErr status),
              sends := [cfg1], refreshCalls := 0 }
        | none =>
          { client := cl, result := .rejected (.httpErr status),
            sends := [cfg1], refreshCalls := 0 }
      else
        { client := cl, result := .rejected (.httpErr status),
          sends := [cfg1], refreshCalls := 0 }

/-- An api call on a fresh request (fuel two suffices, see apiSend). -/
def apiRequest (net : ReqConfig → NetResult) (refreshNet : String → Option String)
    (cl : Client) (cfg : ReqConfig) : ApiRun :=
  apiSend net refreshNet 2 cl cfg

-- =============================================================================
-- Upload page (src/frontend/src/app/upload/page.tsx)
-- =============================================================================

/-- The browser File object, by the fields the page renders. -/
structure FileData where
  name : String
  size : Nat
deriving DecidableEq

/-- The useState fields of UploadPage. -/
structure UploadState where
  file : Option FileData
  uploading : Bool
  parsing : Bool
  generating : Bool
  syllabusId : Option Nat
  parsedData : Option ParsedSyllabusData
  error : String
  studyHours : Nat
  selectedDays : List String
deriving DecidableEq

/-- Initial state of UploadPage. -/
def UploadState.initial : UploadState :=
  { file := none, uploading := false, parsing := false, generating := false,
    syllabusId := none, parsedData := none, error := "", studyHours := 3,
    selectedDays := ["monday", "tuesday", "wednesday", "thursday", "friday"] }

/-- An axios error as the page handlers see it: the optional
response.data.detail string. -/
structure ApiFailure where
  detail : Option String
deriving DecidableEq

/-- The user-facing message: response.data.detail when present and truthy,
otherwise the fallback (the JS or-else operator). -/
def surfaceError (e : ApiFailure) (fallback : String) : String :=
  match e.detail with
  | some d => if jsTruthy d then d else fallback
  | none => fallback

/-- The response of POST /syllabus/upload, by the fields the page reads. -/
structure UploadResponse where
  syllabus_id : Nat
  parsed_data : Option ParsedSyllabusData
deriving DecidableEq

/-- The response of GET /syllabus/, whose syllabi field may be absent
(the page falls back to the empty list). -/
structure SyllabiResponse where
  syllabi : Option (List Syllabus)
deriving DecidableEq

/-- What one run of handleUpload produces: the page state, the plan store
and the endpoints called, in order. -/
structure UploadOutcome where
  page : UploadState
  store : PlanState
  requests : List String
deriving DecidableEq

/-- handleUpload: an early return when no file is selected; otherwise the
in-flight flags are raised and the error cleared, the file is POSTed, on
success syllabusId / parsedData are stored and the syllabi list refreshed,
any failure of either call is caught and surfaced through surfaceError with
fallback Upload failed, and the finally block lowers both flags. -/
def handleUpload (uploadRes : Except ApiFailure UploadResponse)
    (getAllRes : Except ApiFailure SyllabiResponse)
    (st : UploadState) (ps : PlanState) : UploadOutcome :=
  match st.file with
  | none => { page := st, store := ps, requests := [] }
  | some _ =>
    let st1 := { st with uploading := true, parsing := true, error := "" }
    match uploadRes with
    | .error e =>
      { page := { st1 with
                  error := surfaceError e "Upload failed",
                  uploading := false, parsing := false },
        store := ps, requests := ["/syllabus/upload"] }
    | .ok resp =>
      let st2 := { st1 with
                   syllabusId := some resp.syllabus_id,
                   parsedData := resp.parsed_data }
      match getAllRes with
      | .error e =>
        { page := { st2 with
                    error := surfaceError e "Upload failed",
                    uploading := false, parsing := false },
          store := ps, requests := ["/syllabus/upload", "/syllabus/"] }
      | .ok sys =>
        { page := { st2 with uploading := false, parsing := false },
          store := PlanState.setSyllabi ps (sys.syllabi.getD []),
          requests := ["/syllabus/upload", "/syllabus/"] }

/-- What one run of handleGeneratePlan produces, with the router push. -/
structure GenerateOutcome where
  page : UploadState
  store : PlanState
  requests : List String
  navigatedTo : Option String
deriving DecidableEq

/-- handleGeneratePlan: an early return when syllabusId is falsy (absent or
the number zero); otherwise generating is raised and the error cleared, the
plan is requested, on success it is added to the store and the router pushed
to /dashboard, a failure is surfaced with fallback Plan generation failed,
and the finally block lowers generating. -/
def handleGeneratePlan (genRes : Except ApiFailure Plan)
    (st : UploadState) (ps : PlanState) : GenerateOutcome :=
  match st.syllabusId with
  | none => { page := st, store := ps, requests := [], navigatedTo := none }
  | some sid =>
    if sid = 0 then { page := st, store := ps, requests := [], navigatedTo := none }
    else
      let st1 := { st with generating := true, error := "" }
      match genRes with
      | .ok plan =>
        { page := { st1 with generating := false },
          store := PlanState.addPlan ps plan,
          requests := ["/plans/generate"],
          navigatedTo := some "/dashboard" }
      | .error e =>
        { page := { st1 with
                    error := surfaceError e "Plan generation failed",
                    generating := false },
          store := ps, requests := ["/plans/generate"], navigatedTo := none }

/-- The disabled attribute of the Upload and Parse button:
disabled equals uploading. -/
def uploadButtonDisabled (st : UploadState) : Bool :=
  st.uploading

/-- The disabled attribute of the Generate Study Plan button. -/
def generateButtonDisabled (st : UploadState) : Bool :=
  st.generating || (st.selectedDays.length == 0)

-- =============================================================================
-- Dashboard page (src/frontend/src/app/dashboard/page.tsx)
-- =============================================================================

/-- The useState fields of DashboardPage that handleTaskSave touches. -/
structure DashState where
  updatingTask : Option String
  progress : Option PlanProgress
deriving DecidableEq

/-- The observable steps of handleTaskSave, in the order they happen. -/
inductive DashEvent where
  | storeUpdateTask
  | apiUpdateTask
  | apiGetProgress
deriving DecidableEq

/-- What one run of handleTaskSave produces. -/
structure TaskSaveOutcome where
  store : PlanState
  dash : DashState
  events : List DashEvent
deriving DecidableEq

/-- handleTaskSave: an early return when there is no current plan; otherwise
updatingTask is set, the store updateTask runs first (the optimistic update),
then the PUT to the plans api; a rejection of either call is caught and only
logged, with no store rollback; on success the progress is refreshed; the
finally block clears updatingTask. -/
def handleTaskSave (updRes : Except ApiFailure Unit)
    (progRes : Except ApiFailure PlanProgress)
    (ps : PlanState) (ds : DashState)
    (taskId : String) (updates : TaskUpdate) : TaskSaveOutcome :=
  match ps.currentPlan with
  | none => { store := ps, dash := ds, events := [] }
  | some _ =>
    let ds1 := { ds with updatingTask := some taskId }
    let ps1 := PlanState.updateTask ps taskId updates
    match updRes with
    | .error _ =>
      { store := ps1, dash := { ds1 with updatingTask := none },
        events := [.storeUpdateTask, .apiUpdateTask] }
    | .ok _ =>
      match progRes with
      | .error _ =>
        { store := ps1, dash := { ds1 with updatingTask := none },
          events := [.storeUpdateTask, .apiUpdateTask, .apiGetProgress] }
      | .ok prog =>
        { store := ps1,
          dash := { ds1 with progress := some prog, updatingTask := none },
          events := [.storeUpdateTask, .apiUpdateTask, .apiGetProgress] }

/-- The weeks the dashboard renders: plan_data.weeks.slice(0, 4). -/
def renderedWeeks (p : Plan) : List WeekPlan :=
  p.plan_data.weeks.take 4

/-- The number shown by the week-count badge: plan_data.weeks.length. -/
def weekBadgeCount (p : Plan) : Nat :=
  p.plan_data.weeks.length

-- =============================================================================
-- Concrete fixtures for witnesses
-- =============================================================================

/-- A concrete task. -/
def sampleTask : Task :=
  { id := "T1", title := "Read chapter 1", description := none,
    date := "2025-01-06", duration_minutes := 30, type := .reading,
    status := .pending, priority := none, related_assignment_id := none,
    actual_duration_minutes := none, difficulty := none, notes := none }

/-- A concrete week holding sampleTask. -/
def sampleWeek (n : Nat) : WeekPlan :=
  { week_number := n, start_date := "2025-01-06", end_date := "2025-01-12",
    tasks := [sampleTask], notes := none }

/-- A concrete plan over the given weeks. -/
def samplePlan (weeks : List WeekPlan) : Plan :=
  { plan_id := 1, title := "Plan", description := none, status := "active",
    plan_data := { title := "Plan", description := none, weeks := weeks,
                   total_study_hours := none, preferences := [], metadata := [] },
    created_at := "2025-01-01", updated_at := none, version_number := 1 }

/-- A concrete task update as the modal would send it. -/
def sampleUpdate : TaskUpdate :=
  { status := .completed, actual_duration_minutes := some 25,
    difficulty := some "easy", notes := none }

/-- A concrete plan store holding one current plan. -/
def wPS : PlanState :=
  { currentPlan := some (samplePlan [sampleWeek 1]), plans := [], syllabi := [] }

/-- A concrete dashboard state. -/
def wDS : DashState :=
  { updatingTask := none, progress := none }

/-- A concrete upload page state with a selected file and a parsed syllabus. -/
def wUpload : UploadState :=
  { UploadState.initial with
    file := some ⟨"syllabus.pdf", 1024⟩, syllabusId := some 1 }

/-- The auth store invariant: isAuthenticated reflects a non-null user. -/
def authInvariant (s : AuthState) : Prop :=
  s.isAuthenticated = s.user.isSome

-- =============================================================================
-- Theorems
-- =============================================================================

theorem getItem_eraseKey (s : Storage) (k k' : String) :
    getItem (eraseKey s k) k' = if k' = k then none else getItem s k' := by
  induction s with
  | nil => simp [eraseKey, getItem, ite_self]
  | cons p rest ih =>
    by_cases hp : p.1 = k
    · have h1 : eraseKey (p :: rest) k = eraseKey rest k := by
        simp [eraseKey, List.filter_cons, hp]
      rw [h1, ih]
      by_cases hk : k' = k
      · simp [hk]
      · have hpk : p.1 ≠ k' := fun hc => hk (by rw [← hc, hp])
        simp [getItem, hk, hpk]
    · have h1 : eraseKey (p :: rest) k = p :: eraseKey rest k := by
        simp [eraseKey, List.filter_cons, bne_iff_ne, hp]
      rw [h1]
      by_cases hpk : p.1 = k'
      · have hk : k' ≠ k := fun hc => hp (by rw [hpk, hc])
        simp [getItem, hpk, hk]
      · simp only [getItem, if_neg hpk]
        exact ih

theorem getItem_setItem (s : Storage) (k k' v : String) :
    getItem (setItem s k v) k' = if k' = k then some v else getItem s k' := by
  by_cases hk : k' = k
  · simp [setItem, getItem, hk]
  · have : k ≠ k' := fun hc => hk hc.symm
    simp only [setItem, getItem, if_neg this, getItem_eraseKey, if_neg hk]

theorem getItem_setItem_self (s : Storage) (k v : String) :
    getItem (setItem s k v) k = some v := by
  simp [getItem_setItem]

theorem getItem_setItem_ne (s : Storage) (k k' v : String) (h : k' ≠ k) :
    getItem (setItem s k v) k' = getItem s k' := by
  simp [getItem_setItem, h]

theorem getItem_removeItem (s : Storage) (k k' : String) :
    getItem (removeItem s k) k' = if k' = k then none else getItem s k' :=
  getItem_eraseKey s k k'

theorem getItem_removeItem_self (s : Storage) (k : String) :
    getItem (removeItem s k) k = none := by
  simp [getItem_removeItem]

theorem getItem_removeItem_ne (s : Storage) (k k' : String) (h : k' ≠ k) :
    getItem (removeItem s k) k' = getItem s k' := by
  simp [getItem_removeItem, h]

theorem requestInterceptor_retry (s : Storage) (cfg : ReqConfig) :
    (requestInterceptor s cfg)._retry = cfg._retry := by
  unfold requestInterceptor
  cases getItem s "access_token" with
  | none => rfl
  | some t =>
    by_cases ht : jsTruthy t
    · simp [ht]
    · simp [ht]

theorem requestInterceptor_authHeader_bearer (s : Storage) (cfg : ReqConfig)
    (tok : String) (hs : getItem s "access_token" = some tok)
    (hh : cfg.authHeader = some ("Bearer " ++ tok)) :
    (requestInterceptor s cfg).authHeader = some ("Bearer " ++ tok) := by
  unfold requestInterceptor
  rw [hs]
  by_cases ht : jsTruthy tok
  · simp [ht]
  · simp [ht, hh]

theorem apiSend_retry_true (net : ReqConfig → NetResult)
    (refreshNet : String → Option String) (fuel : Nat) (cl : Client)
    (cfg : ReqConfig) (h : cfg._retry = true) :
    apiSend net refreshNet (fuel + 1) cl cfg =
      match net (requestInterceptor cl.storage cfg) with
      | .ok d =>
        { client := cl, result := .success d,
          sends := [requestInterceptor cl.storage cfg], refreshCalls := 0 }
      | .err status =>
        { client := cl, result := .rejected (.httpErr status),
          sends := [requestInterceptor cl.storage cfg], refreshCalls := 0 } := by
  have h1 : (requestInterceptor cl.storage cfg)._retry = true := by
    rw [requestInterceptor_retry]; exact h
  unfold apiSend
  cases hn : net (requestInterceptor cl.storage cfg) with
  | ok d => simp [hn]
  | err status => simp [hn, h1]

theorem apiRequest_ok (net : ReqConfig → NetResult)
    (rn : String → Option String) (cl : Client) (cfg : ReqConfig) (d : String)
    (hn : net (requestInterceptor cl.storage cfg) = .ok d) :
    apiRequest net rn cl cfg =
      { client := cl, result := .success d,
        sends := [requestInterceptor cl.storage cfg], refreshCalls := 0 } := by
  unfold apiRequest
  rw [show (2 : Nat) = 1 + 1 from rfl]
  unfold apiSend
  simp [hn]

theorem apiRequest_err_not401 (net : ReqConfig → NetResult)
    (rn : String → Option String) (cl : Client) (cfg : ReqConfig)
    (status : Option Nat)
    (hn : net (requestInterceptor cl.storage cfg) = .err status)
    (hst : status ≠ some 401) :
    apiRequest net rn cl cfg =
      { client := cl, result := .rejected (.httpErr status),
        sends := [requestInterceptor cl.storage cfg], refreshCalls := 0 } := by
  unfold apiRequest
  rw [show (2 : Nat) = 1 + 1 from rfl]
  unfold apiSend
  simp [hn, hst]

theorem apiRequest_401_noRefreshToken (net : ReqConfig → NetResult)
    (rn : String → Option String) (cl : Client) (cfg : ReqConfig)
    (h : cfg._retry = false)
    (hn : net (requestInterceptor cl.storage cfg) = .err (some 401))
    (hrt : getItem cl.storage "refresh_token" = none) :
    apiRequest net rn cl cfg =
      { client := cl, result := .rejected (.httpErr (some 401)),
        sends := [requestInterceptor cl.storage cfg], refreshCalls := 0 } := by
  have h1 : (requestInterceptor cl.storage cfg)._retry = false := by
    rw [requestInterceptor_retry]; exact h
  unfold apiRequest
  rw [show (2 : Nat) = 1 + 1 from rfl]
  unfold apiSend
  simp [hn, h1, hrt]

theorem apiRequest_401_emptyRefreshToken (net : ReqConfig → NetResult)
    (rn : String → Option String) (cl : Client) (cfg : ReqConfig) (rt : String)
    (h : cfg._retry = false)
    (hn : net (requestInterceptor cl.storage cfg) = .err (some 401))
    (hrt : getItem cl.storage "refresh_token" = some rt)
    (hjs : jsTruthy rt = false) :
    apiRequest net rn cl cfg =
      { client := cl, result := .rejected (.httpErr (some 401)),
        sends := [requestInterceptor cl.storage cfg], refreshCalls := 0 } := by
  have h1 : (requestInterceptor cl.storage cfg)._retry = false := by
    rw [requestInterceptor_retry]; exact h
  unfold apiRequest
  rw [show (2 : Nat) = 1 + 1 from rfl]
  unfold apiSend
  simp [hn, h1, hrt, hjs]

theorem apiRequest_401_refreshFail (net : ReqConfig → NetResult)
    (rn : String → Option String) (cl : Client) (cfg : ReqConfig) (rt : String)
    (h : cfg._retry = false)
    (hn : net (requestInterceptor cl.storage cfg) = .err (some 401))
    (hrt : getItem cl.storage "refresh_token" = some rt)
    (hjs : jsTruthy rt = true)
    (hrn : rn rt = none) :
    apiRequest net rn cl cfg =
      { client := { storage := logoutRemoveTokens cl.storage,
                    redirect := some "/login" },
        result := .rejected .refreshErr,
        sends := [requestInterceptor cl.storage cfg], refreshCalls := 1 } := by
  have h1 : (requestInterceptor cl.storage cfg)._retry = false := by
    rw [requestInterceptor_retry]; exact h
  unfold apiRequest
  rw [show (2 : Nat) = 1 + 1 from rfl]
  unfold apiSend
  simp [hn, h1, hrt, hjs, hrn]

theorem apiRequest_401_refreshOk (net : ReqConfig → NetResult)
    (rn : String → Option String) (cl : Client) (cfg : ReqConfig)
    (rt tok : String)
    (h : cfg._retry = false)
    (hn : net (requestInterceptor cl.storage cfg) = .err (some 401))
    (hrt : getItem cl.storage "refresh_token" = some rt)
    (hjs : jsTruthy rt = true)
    (hrn : rn rt = some tok) :
    apiRequest net rn cl cfg =
      (match net (requestInterceptor (setItem cl.storage "access_token" tok)
          { requestInterceptor cl.storage cfg with
            _retry := true, authHeader := some ("Bearer " ++ tok) }) with
       | .ok d =>
         { client := { cl with storage := setItem cl.storage "access_token" tok },
           result := .success d,
           sends := [requestInterceptor cl.storage cfg,
             requestInterceptor (setItem cl.storage "access_token" tok)
               { requestInterceptor cl.storage cfg with
                 _retry := true, authHeader := some ("Bearer " ++ tok) }],
           refreshCalls := 1 }
       | .err st2 =>
         { client := { cl with storage := setItem cl.storage "access_token" tok },
           result := .rejected (.httpErr st2),
           sends := [requestInterceptor cl.storage cfg,
             requestInterceptor (setItem cl.storage "access_token" tok)
               { requestInterceptor cl.storage cfg with
                 _retry := true, authHeader := some ("Bearer " ++ tok) }],
           refreshCalls := 1 }) := by
  have h1 : (requestInterceptor cl.storage cfg)._retry = false := by
    rw [requestInterceptor_retry]; exact h
  unfold apiRequest
  rw [show (2 : Nat) = 1 + 1 from rfl]
  unfold apiSend
  rw [show (1 : Nat) = 0 + 1 from rfl]
  simp only [hn, h1, hrt, hjs, hrn, apiSend_retry_true]
  cases hx : net (requestInterceptor (setItem cl.storage "access_token" tok)
      { url := (requestInterceptor cl.storage cfg).url,
        authHeader := some ("Bearer " ++ tok), _retry := true }) with
  | ok d => simp [hx]
  | err st2 => simp [hx]

/-- Claim C1: for every request through the axios client whose response is a
401 and whose config carries no _retry marker, the response interceptor makes
at most one refresh call and at most one retry; when the refresh succeeds it
makes exactly one refresh call followed by exactly one retry of the original
request, the retried config carrying the marker and the new bearer token; and
when that retried request 401s again the error is rejected to the caller with
no further refresh or retry (the counts stay one and two). -/
theorem c1_single_refresh_and_retry_on_401
    (net : ReqConfig → NetResult) (refreshNet : String → Option String)
    (cl : Client) (url : String) (ah : Option String) :
    (apiRequest net refreshNet cl ⟨url, ah, false⟩).refreshCalls ≤ 1 ∧
    (apiRequest net refreshNet cl ⟨url, ah, false⟩).sends.length ≤ 2 ∧
    (∀ rt tok,
      net (requestInterceptor cl.storage ⟨url, ah, false⟩) = .err (some 401) →
      getItem cl.storage "refresh_token" = some rt →
      jsTruthy rt = true →
      refreshNet rt = some tok →
      (apiRequest net refreshNet cl ⟨url, ah, false⟩).refreshCalls = 1 ∧
      ∃ retryCfg,
        (apiRequest net refreshNet cl ⟨url, ah, false⟩).sends =
          [requestInterceptor cl.storage ⟨url, ah, false⟩, retryCfg] ∧
        retryCfg._retry = true ∧
        retryCfg.authHeader = some ("Bearer " ++ tok) ∧
        (net retryCfg = .err (some 401) →
          (apiRequest net refreshNet cl ⟨url, ah, false⟩).result =
            .rejected (.httpErr (some 401)))) := by
  have h : (⟨url, ah, false⟩ : ReqConfig)._retry = false := rfl
  cases hn : net (requestInterceptor cl.storage ⟨url, ah, false⟩) with
  | ok d =>
    rw [apiRequest_ok net refreshNet cl _ d hn]
    refine ⟨by simp, by simp, ?_⟩
    intro rt tok hn401 _ _ _
    simp at hn401
  | err status =>
    by_cases hst : status = some 401
    · subst hst
      cases hrt : getItem cl.storage "refresh_token" with
      | none =>
        rw [apiRequest_401_noRefreshToken net refreshNet cl _ h hn hrt]
        refine ⟨by simp, by simp, ?_⟩
        intro rt tok _ hrt2 _ _
        simp at hrt2
      | some rt0 =>
        by_cases hjs : jsTruthy rt0
        · cases hrn : refreshNet rt0 with
          | none =>
            rw [apiRequest_401_refreshFail net refreshNet cl _ rt0 h hn hrt hjs hrn]
            refine ⟨by simp, by simp, ?_⟩
            intro rt tok _ hrt2 _ hrn2
            injection hrt2 with he
            subst he
            rw [hrn] at hrn2
            simp at hrn2
          | some tok0 =>
            rw [apiRequest_401_refreshOk net refreshNet cl _ rt0 tok0 h hn hrt hjs hrn]
            cases hx : net (requestInterceptor (setItem cl.storage "access_token" tok0)
                { requestInterceptor cl.storage (⟨url, ah, false⟩ : ReqConfig) with
                  _retry := true, authHeader := some ("Bearer " ++ tok0) }) with
            | ok d =>
              refine ⟨by simp [hx], by simp [hx], ?_⟩
              intro rt tok hn401 hrt2 hjs2 hrn2
              injection hrt2 with he
              subst he
              rw [hrn] at hrn2
              injection hrn2 with he2
              subst he2
              refine ⟨rfl, _, rfl, ?_, ?_, ?_⟩
              · rw [requestInterceptor_retry]
              · exact requestInterceptor_authHeader_bearer _ _ _
                  (getItem_setItem_self _ _ _) rfl
              · intro hx401
                rw [hx] at hx401
                simp at hx401
            | err st2 =>
              refine ⟨by simp [hx], by simp [hx], ?_⟩
              intro rt tok hn401 hrt2 hjs2 hrn2
              injection hrt2 with he
              subst he
              rw [hrn] at hrn2
              injection hrn2 with he2
              subst he2
              refine ⟨rfl, _, rfl, ?_, ?_, ?_⟩
              · rw [requestInterceptor_retry]
              · exact requestInterceptor_authHeader_bearer _ _ _
                  (getItem_setItem_self _ _ _) rfl
              · intro hx401
                rw [hx] at hx401
                injection hx401 with he3
                rw [he3]
        · have hjs2 : jsTruthy rt0 = false := by simpa using hjs
          rw [apiRequest_401_emptyRefreshToken net refreshNet cl _ rt0 h hn hrt hjs2]
          refine ⟨by simp, by simp, ?_⟩
          intro rt tok _ hrt2 hjs3 _
          injection hrt2 with he
          subst he
          rw [hjs2] at hjs3
          simp at hjs3
    · rw [apiRequest_err_not401 net refreshNet cl _ status hn hst]
      refine ⟨by simp, by simp, ?_⟩
      intro rt tok hn401 _ _ _
      injection hn401 with he
      exact absurd he hst

theorem logoutRemoveTokens_access (s : Storage) :
    getItem (logoutRemoveTokens s) "access_token" = none := by
  unfold logoutRemoveTokens
  rw [getItem_removeItem_ne _ _ _ (by decide), getItem_removeItem_self]

theorem logoutRemoveTokens_refresh (s : Storage) :
    getItem (logoutRemoveTokens s) "refresh_token" = none :=
  getItem_removeItem_self _ _

/-- Claim C8: after a 401, when no refresh token is stored the original error
is rejected and the browser state is untouched; when the refresh call itself
fails, the refresh error is rejected, both token keys are removed from
localStorage and the browser is redirected to /login. -/
theorem c8_refresh_failure_ends_session
    (net : ReqConfig → NetResult) (refreshNet : String → Option String)
    (cl : Client) (url : String) (ah : Option String)
    (hn : net (requestInterceptor cl.storage ⟨url, ah, false⟩) = .err (some 401)) :
    (getItem cl.storage "refresh_token" = none →
      apiRequest net refreshNet cl ⟨url, ah, false⟩ =
        { client := cl, result := .rejected (.httpErr (some 401)),
          sends := [requestInterceptor cl.storage ⟨url, ah, false⟩],
          refreshCalls := 0 }) ∧
    (∀ rt, getItem cl.storage "refresh_token" = some rt →
      jsTruthy rt = true →
      refreshNet rt = none →
      (apiRequest net refreshNet cl ⟨url, ah, false⟩).result = .rejected .refreshErr ∧
      getItem (apiRequest net refreshNet cl ⟨url, ah, false⟩).client.storage
        "access_token" = none ∧
      getItem (apiRequest net refreshNet cl ⟨url, ah, false⟩).client.storage
        "refresh_token" = none ∧
      (apiRequest net refreshNet cl ⟨url, ah, false⟩).client.redirect =
        some "/login") := by
  constructor
  · intro hrt
    exact apiRequest_401_noRefreshToken net refreshNet cl _ rfl hn hrt
  · intro rt hrt hjs hrn
    rw [apiRequest_401_refreshFail net refreshNet cl _ rt rfl hn hrt hjs hrn]
    exact ⟨rfl, logoutRemoveTokens_access _, logoutRemoveTokens_refresh _, rfl⟩

/-- Witness for C8 at a concrete input: one stored token pair, a network that
always answers 401, and a refresh endpoint that always fails. -/
theorem c8_refresh_failure_ends_session_witness :
    ((fun _ : ReqConfig => NetResult.err (some 401))
        (requestInterceptor
          ((⟨[("access_token", "a"), ("refresh_token", "r")], none⟩ : Client)).storage
          ⟨"/plans/", none, false⟩) = NetResult.err (some 401)) ∧
    ((apiRequest (fun _ => .err (some 401)) (fun _ => none)
        ⟨[("access_token", "a"), ("refresh_token", "r")], none⟩
        ⟨"/plans/", none, false⟩).result = .rejected .refreshErr ∧
      getItem (apiRequest (fun _ => .err (some 401)) (fun _ => none)
        ⟨[("access_token", "a"), ("refresh_token", "r")], none⟩
        ⟨"/plans/", none, false⟩).client.storage "access_token" = none ∧
      getItem (apiRequest (fun _ => .err (some 401)) (fun _ => none)
        ⟨[("access_token", "a"), ("refresh_token", "r")], none⟩
        ⟨"/plans/", none, false⟩).client.storage "refresh_token" = none ∧
      (apiRequest (fun _ => .err (some 401)) (fun _ => none)
        ⟨[("access_token", "a"), ("refresh_token", "r")], none⟩
        ⟨"/plans/", none, false⟩).client.redirect = some "/login") :=
  ⟨rfl,
    (c8_refresh_failure_ends_session (fun _ => .err (some 401)) (fun _ => none)
        ⟨[("access_token", "a"), ("refresh_token", "r")], none⟩
        "/plans/" none rfl).2 "r" (by decide) (by decide) rfl⟩

/-- Counterexample to claim C5 as stated: with an empty string stored under
access_token a token is present in localStorage, yet the request interceptor
attaches no Authorization header (the source tests JS truthiness of the
token, and the empty string is falsy). -/
theorem c5_counterexample :
    getItem ([("access_token", "")] : Storage) "access_token" = some "" ∧
    (requestInterceptor ([("access_token", "")] : Storage)
      ⟨"/plans/", none, false⟩).authHeader = none := by
  decide

/-- Claim C5 (amended): the request interceptor attaches an Authorization
header of the form Bearer token if and only if a non-empty access token is
stored under access_token; when the key is absent, or holds the falsy empty
string, the config with its headers is forwarded unchanged. -/
theorem c5_bearer_header_iff_nonempty_token
    (s : Storage) (url : String) (ah : Option String) (r : Bool) :
    (∀ t, getItem s "access_token" = some t → jsTruthy t = true →
      requestInterceptor s ⟨url, ah, r⟩ = ⟨url, some ("Bearer " ++ t), r⟩) ∧
    (getItem s "access_token" = none →
      requestInterceptor s ⟨url, ah, r⟩ = ⟨url, ah, r⟩) ∧
    (getItem s "access_token" = some "" →
      requestInterceptor s ⟨url, ah, r⟩ = ⟨url, ah, r⟩) := by
  refine ⟨?_, ?_, ?_⟩
  · intro t ht htr
    unfold requestInterceptor
    rw [ht]
    simp [htr]
  · intro ht
    unfold requestInterceptor
    rw [ht]
  · intro ht
    unfold requestInterceptor
    rw [ht]
    simp [jsTruthy]

/-- Counterexample to claim C2 as stated: getAuthToken does not read the key
that authAPI.login writes, and setAuthToken does not write either fixed
token key; both use the separate key auth_token. -/
theorem c2_counterexample :
    getAuthToken true (loginStoreTokens Storage.empty "A" "R") = none ∧
    getItem (setAuthToken true Storage.empty "T") "access_token" = none ∧
    getItem (setAuthToken true Storage.empty "T") "refresh_token" = none ∧
    getAuthToken true (setAuthToken true Storage.empty "T") = some "T" := by
  decide

/-- Claim C2 (amended): the api client, authAPI.login, authAPI.logout and the
auth store logout use exactly the fixed keys access_token and refresh_token,
while getAuthToken and setAuthToken of frontend/lib/auth.ts use the disjoint
key auth_token, so reads and writes through the latter pair never observe or
affect the keys that login writes and logout removes. -/
theorem c2_token_storage_keys (s : Storage) (a r t : String) :
    getItem (loginStoreTokens s a r) "access_token" = some a ∧
    getItem (loginStoreTokens s a r) "refresh_token" = some r ∧
    getItem (logoutRemoveTokens s) "access_token" = none ∧
    getItem (logoutRemoveTokens s) "refresh_token" = none ∧
    getAuthToken true (loginStoreTokens s a r) = getAuthToken true s ∧
    getAuthToken true (logoutRemoveTokens s) = getAuthToken true s ∧
    getAuthToken true (setAuthToken true s t) = some t ∧
    getItem (setAuthToken true s t) "access_token" = getItem s "access_token" ∧
    getItem (setAuthToken true s t) "refresh_token" = getItem s "refresh_token" := by
  refine ⟨?_, ?_, logoutRemoveTokens_access s, logoutRemoveTokens_refresh s,
    ?_, ?_, ?_, ?_, ?_⟩ <;>
    simp [loginStoreTokens, logoutRemoveTokens, getAuthToken, setAuthToken,
      getItem_setItem, getItem_removeItem]

-- =============================================================================
-- Remaining claims
-- =============================================================================

/-- Claim C3: on a task save from the dashboard the store updateTask is
applied strictly before the network call (the event list orders them), and
when the call rejects the local state is not rolled back: the failed run
leaves the store exactly at the optimistically updated state, whose current
plan carries every matching task merged with the updates. -/
theorem c3_optimistic_update_without_rollback
    (progRes : Except ApiFailure PlanProgress) (ps : PlanState) (ds : DashState)
    (taskId : String) (updates : TaskUpdate) (p : Plan) (e : ApiFailure)
    (hp : ps.currentPlan = some p) :
    handleTaskSave (.error e) progRes ps ds taskId updates =
      { store := PlanState.updateTask ps taskId updates,
        dash := { ds with updatingTask := none },
        events := [.storeUpdateTask, .apiUpdateTask] } ∧
    (PlanState.updateTask ps taskId updates).currentPlan =
      some { p with
             plan_data := { p.plan_data with
                            weeks := p.plan_data.weeks.map (fun w =>
                              { w with
                                tasks := w.tasks.map (fun t =>
                                  if t.id = taskId then mergeTask t updates
                                  else t) }) } } := by
  constructor
  · simp [handleTaskSave, hp]
  · simp [PlanState.updateTask, hp]

/-- Witness for C3 at a concrete store: after a failed save the store equals
the optimistically updated store and the update event precedes the call. -/
theorem c3_optimistic_update_without_rollback_witness :
    wPS.currentPlan = some (samplePlan [sampleWeek 1]) ∧
    (handleTaskSave (.error ⟨none⟩) (.error ⟨none⟩) wPS wDS "T1" sampleUpdate).store =
      PlanState.updateTask wPS "T1" sampleUpdate ∧
    (handleTaskSave (.error ⟨none⟩) (.error ⟨none⟩) wPS wDS "T1" sampleUpdate).events =
      [.storeUpdateTask, .apiUpdateTask] := by
  have h := c3_optimistic_update_without_rollback (.error ⟨none⟩) wPS wDS "T1"
    sampleUpdate (samplePlan [sampleWeek 1]) ⟨none⟩ rfl
  exact ⟨rfl, by rw [h.1], by rw [h.1]⟩

/-- Claim C4: every plan store operation replaces only its target fields and
leaves every other field unchanged: setCurrentPlan only currentPlan, setPlans
only plans, setSyllabi only syllabi, addPlan only plans, and updateTask only
currentPlan. -/
theorem c4_plan_store_frame (s : PlanState) (p : Plan) (op : Option Plan)
    (plans : List Plan) (sys : List Syllabus) (taskId : String) (u : TaskUpdate) :
    (PlanState.setCurrentPlan s op).currentPlan = op ∧
    (PlanState.setCurrentPlan s op).plans = s.plans ∧
    (PlanState.setCurrentPlan s op).syllabi = s.syllabi ∧
    (PlanState.setPlans s plans).plans = plans ∧
    (PlanState.setPlans s plans).currentPlan = s.currentPlan ∧
    (PlanState.setPlans s plans).syllabi = s.syllabi ∧
    (PlanState.setSyllabi s sys).syllabi = sys ∧
    (PlanState.setSyllabi s sys).currentPlan = s.currentPlan ∧
    (PlanState.setSyllabi s sys).plans = s.plans ∧
    (PlanState.addPlan s p).plans = p :: s.plans ∧
    (PlanState.addPlan s p).currentPlan = s.currentPlan ∧
    (PlanState.addPlan s p).syllabi = s.syllabi ∧
    (PlanState.updateTask s taskId u).plans = s.plans ∧
    (PlanState.updateTask s taskId u).syllabi = s.syllabi := by
  refine ⟨rfl, rfl, rfl, rfl, rfl, rfl, rfl, rfl, rfl, rfl, rfl, rfl, ?_, ?_⟩ <;>
    (cases hc : s.currentPlan <;> simp [PlanState.updateTask, hc])

/-- Claim C6: a failing network step of the upload / generate flow is caught
by its try/catch and surfaced only as the user-facing error string (the
response detail when truthy, else the fallback), the in-flight flags are
reset to false by the finally block, and the failed step changes no other
client state: the rest of the page state and the plan store are exactly as
before the step. -/
theorem c6_upload_flow_errors_caught_and_flags_reset
    (st : UploadState) (ps : PlanState) (f : FileData) (sid : Nat)
    (resp : UploadResponse) (e1 e2 e3 : ApiFailure)
    (getAllRes : Except ApiFailure SyllabiResponse)
    (hf : st.file = some f) (hs : st.syllabusId = some sid) (hs0 : sid ≠ 0) :
    (handleUpload (.error e1) getAllRes st ps =
      { page := { st with
                  uploading := false, parsing := false,
                  error := surfaceError e1 "Upload failed" },
        store := ps, requests := ["/syllabus/upload"] }) ∧
    (handleUpload (.ok resp) (.error e2) st ps =
      { page := { st with
                  uploading := false, parsing := false,
                  syllabusId := some resp.syllabus_id,
                  parsedData := resp.parsed_data,
                  error := surfaceError e2 "Upload failed" },
        store := ps, requests := ["/syllabus/upload", "/syllabus/"] }) ∧
    (handleGeneratePlan (.error e3) st ps =
      { page := { st with
                  generating := false,
                  error := surfaceError e3 "Plan generation failed" },
        store := ps, requests := ["/plans/generate"], navigatedTo := none }) := by
  refine ⟨?_, ?_, ?_⟩
  · simp [handleUpload, hf]
  · simp [handleUpload, hf]
  · simp [handleGeneratePlan, hs, hs0]

/-- Witness for C6 at a concrete page state: the fallback message on a
detail-less upload failure, the reset flag, and the served detail string on a
generate failure. -/
theorem c6_upload_flow_errors_witness :
    wUpload.file = some ⟨"syllabus.pdf", 1024⟩ ∧
    wUpload.syllabusId = some 1 ∧
    (handleUpload (.error ⟨none⟩) (.ok ⟨none⟩) wUpload PlanState.initial).page.error =
      "Upload failed" ∧
    (handleUpload (.error ⟨none⟩) (.ok ⟨none⟩) wUpload
      PlanState.initial).page.uploading = false ∧
    (handleGeneratePlan (.error ⟨some "model timeout"⟩) wUpload
      PlanState.initial).page.error = "model timeout" ∧
    (handleGeneratePlan (.error ⟨some "model timeout"⟩) wUpload
      PlanState.initial).store = PlanState.initial := by
  have h := c6_upload_flow_errors_caught_and_flags_reset wUpload PlanState.initial
    ⟨"syllabus.pdf", 1024⟩ 1 ⟨1, none⟩ ⟨none⟩ ⟨none⟩ ⟨some "model timeout"⟩
    (.ok ⟨none⟩) rfl rfl (by decide)
  refine ⟨rfl, rfl, ?_, ?_, ?_, ?_⟩
  · rw [h.1]
    rfl
  · rw [h.1]
  · rw [h.2.2]
    rfl
  · rw [h.2.2]

/-- Claim C7: with no file selected handleUpload returns at once, issuing no
network request and changing no state; and the Upload and Parse button is
disabled whenever an upload is in flight. -/
theorem c7_no_upload_without_file
    (st : UploadState) (ps : PlanState)
    (uploadRes : Except ApiFailure UploadResponse)
    (getAllRes : Except ApiFailure SyllabiResponse)
    (hf : st.file = none) :
    handleUpload uploadRes getAllRes st ps =
      { page := st, store := ps, requests := [] } ∧
    (st.uploading = true → uploadButtonDisabled st = true) := by
  exact ⟨by simp [handleUpload, hf], fun h => h⟩

/-- Witness for C7 at the initial page state, which has no file selected. -/
theorem c7_no_upload_without_file_witness :
    UploadState.initial.file = none ∧
    handleUpload (.error ⟨none⟩) (.error ⟨none⟩) UploadState.initial
      PlanState.initial =
      { page := UploadState.initial, store := PlanState.initial, requests := [] } ∧
    (UploadState.initial.uploading = true →
      uploadButtonDisabled UploadState.initial = true) :=
  ⟨rfl,
    (c7_no_upload_without_file UploadState.initial PlanState.initial
      (.error ⟨none⟩) (.error ⟨none⟩) rfl).1,
    (c7_no_upload_without_file UploadState.initial PlanState.initial
      (.error ⟨none⟩) (.error ⟨none⟩) rfl).2⟩

/-- Claim C9: isAuthenticated equals the truthiness of user in the initial
auth store state and after every operation: setUser re-establishes it from
its argument and logout resets both. -/
theorem c9_isAuthenticated_tracks_user
    (s : AuthState) (u : Option User) (storage : Storage) :
    authInvariant AuthState.initial ∧
    authInvariant (AuthState.setUser s u) ∧
    authInvariant (AuthState.logout s storage).1 :=
  ⟨rfl, rfl, rfl⟩

/-- Claim C10: the dashboard renders exactly the first four entries of
plan_data.weeks: the rendered list is the length-four prefix, any index past
three renders nothing, and indices inside the prefix agree with the full
list, while the week-count badge still shows the full length. -/
theorem c10_only_first_four_weeks_rendered (p : Plan) :
    renderedWeeks p = p.plan_data.weeks.take 4 ∧
    (renderedWeeks p).length = min 4 p.plan_data.weeks.length ∧
    (∀ i, 4 ≤ i → (renderedWeeks p)[i]? = none) ∧
    (∀ i, i < 4 → (renderedWeeks p)[i]? = p.plan_data.weeks[i]?) ∧
    weekBadgeCount p = p.plan_data.weeks.length := by
  refine ⟨rfl, List.length_take _ _, ?_, ?_, rfl⟩
  · intro i hi
    have hni : ¬ i < 4 := by omega
    simp [renderedWeeks, List.getElem?_take, hni]
  · intro i hi
    simp [renderedWeeks, List.getElem?_take, hi]

-- Concrete end-to-end evaluations of the api client model
example :
    (apiRequest (fun _ => .ok "d") (fun _ => none)
      { storage := [], redirect := none }
      { url := "/plans/", authHeader := none, _retry := false }).result
    = .success "d" := by decide

example :
    (apiRequest (fun c => if c._retry then .ok "d" else .err (some 401))
      (fun _ => some "tok2")
      { storage := [("access_token", "tok1"), ("refresh_token", "r1")], redirect := none }
      { url := "/plans/", authHeader := none, _retry := false })
    = { client := { storage := [("access_token", "tok2"), ("refresh_token", "r1")],
                    redirect := none },
        result := .success "d",
        sends := [{ url := "/plans/", authHeader := some "Bearer tok1", _retry := false },
                  { url := "/plans/", authHeader := some "Bearer tok2", _retry := true }],
        refreshCalls := 1 } := by decide

end Planner
